import Mathlib

/-!
# Shallow embedding of `le-store-redis` (Redis storage strategy for node-letsencrypt)

This file embeds the operations of the storage plugin as pure Lean functions over an
explicit store state.  The Redis backend is modelled as an association list of
entries `key ↦ (value, ttl)`; `client.set` is an overwriting insert and
`client.get` a lookup.  JSON serialization of the stored records
(`JSON.stringify` / `JSON.parse` through `deserializeJson`) round-trips plain
records exactly, so records are stored in typed form; the pass-through of an absent
reply in `deserializeJson` is modelled by `Option`.

The Node crypto SHA-256 hex digest used for key derivation is embedded as a
full executable SHA-256 over the UTF-8 bytes of `s`, producing the lowercase
hexadecimal digest.
-/

/-- The modulus for SHA-256 word arithmetic, 2^32. -/
def w32mod : Nat := 4294967296

/-- Truncate to a 32-bit word. -/
def trunc32 (x : Nat) : Nat := x % w32mod

/-- 32-bit right rotation. -/
def rotr32 (x n : Nat) : Nat := trunc32 ((x >>> n) ||| (x <<< (32 - n)))

/-- UTF-8 encoding of a single Unicode code point, as a list of byte values. -/
def utf8Char (c : Char) : List Nat :=
  let n := c.toNat
  if n < 128 then [n]
  else if n < 2048 then [192 ||| (n >>> 6), 128 ||| (n &&& 63)]
  else if n < 65536 then
    [224 ||| (n >>> 12), 128 ||| ((n >>> 6) &&& 63), 128 ||| (n &&& 63)]
  else
    [240 ||| (n >>> 18), 128 ||| ((n >>> 12) &&& 63),
     128 ||| ((n >>> 6) &&& 63), 128 ||| (n &&& 63)]

/-- Embeds the UTF-8 byte sequence of a string, which is what the Node crypto
hash update consumes for a JS string argument. -/
def utf8Bytes (s : String) : List Nat := s.data.flatMap utf8Char

/-- SHA-256 padding: append `0x80`, zero bytes to 56 mod 64, then the 64-bit
big-endian bit length. -/
def sha256pad (msg : List Nat) : List Nat :=
  let len := msg.length
  let zeros := (119 - (len % 64)) % 64
  let bitLen := 8 * len
  msg ++ [128] ++ List.replicate zeros 0 ++
    ((List.range 8).map fun i => (bitLen >>> (8 * (7 - i))) % 256)

/-- Group bytes into big-endian 32-bit words. -/
def bytesToWords : List Nat → List Nat
  | a :: b :: c :: d :: rest =>
      ((a <<< 24) ||| (b <<< 16) ||| (c <<< 8) ||| d) :: bytesToWords rest
  | _ => []

/-- The eight working registers of SHA-256. -/
structure Hash8 where
  a : Nat
  b : Nat
  c : Nat
  d : Nat
  e : Nat
  f : Nat
  g : Nat
  h : Nat
  deriving DecidableEq, Repr

/-- SHA-256 initial hash value. -/
def sha256init : Hash8 :=
  ⟨1779033703, 3144134277, 1013904242, 2773480762,
   1359893119, 2600822924, 528734635, 1541459225⟩

/-- The 64 SHA-256 round constants. -/
def sha256K : List Nat :=
  [1116352408, 1899447441, 3049323471, 3921009573, 961987163, 1508970993,
   2453635748, 2870763221, 3624381080, 310598401, 607225278, 1426881987,
   1925078388, 2162078206, 2614888103, 3248222580, 3835390401, 4022224774,
   264347078, 604807628, 770255983, 1249150122, 1555081692, 1996064986,
   2554220882, 2821834349, 2952996808, 3210313671, 3336571891, 3584528711,
   113926993, 338241895, 666307205, 773529912, 1294757372, 1396182291,
   1695183700, 1986661051, 2177026350, 2456956037, 2730485921, 2820302411,
   3259730800, 3345764771, 3516065817, 3600352804, 4094571909, 275423344,
   430227734, 506948616, 659060556, 883997877, 958139571, 1322822218,
   1537002063, 1747873779, 1955562222, 2024104815, 2227730452, 2361852424,
   2428436474, 2756734187, 3204031479, 3329325298]

/-- Message-schedule extension step: given the schedule so far (indexed from
the end via `getD`), append the next word. -/
def scheduleNext (ws : List Nat) : Nat :=
  let len := ws.length
  let w15 := ws.getD (len - 15) 0
  let w2 := ws.getD (len - 2) 0
  let w16 := ws.getD (len - 16) 0
  let w7 := ws.getD (len - 7) 0
  let s0 := (rotr32 w15 7) ^^^ (rotr32 w15 18) ^^^ (w15 >>> 3)
  let s1 := (rotr32 w2 17) ^^^ (rotr32 w2 19) ^^^ (w2 >>> 10)
  trunc32 (w16 + s0 + w7 + s1)

/-- Extend a 16-word block by `n` further schedule words. -/
def scheduleExtend (ws : List Nat) : Nat → List Nat
  | 0 => ws
  | n + 1 => scheduleExtend (ws ++ [scheduleNext ws]) n

/-- One SHA-256 round, absorbing a round constant `k` and schedule word `w`. -/
def sha256Round (st : Hash8) (kw : Nat × Nat) : Hash8 :=
  let s1 := (rotr32 st.e 6) ^^^ (rotr32 st.e 11) ^^^ (rotr32 st.e 25)
  let ch := (st.e &&& st.f) ^^^ ((w32mod - 1 - st.e) &&& st.g)
  let temp1 := trunc32 (st.h + s1 + ch + kw.1 + kw.2)
  let s0 := (rotr32 st.a 2) ^^^ (rotr32 st.a 13) ^^^ (rotr32 st.a 22)
  let maj := (st.a &&& st.b) ^^^ (st.a &&& st.c) ^^^ (st.b &&& st.c)
  let temp2 := trunc32 (s0 + maj)
  ⟨trunc32 (temp1 + temp2), st.a, st.b, st.c,
   trunc32 (st.d + temp1), st.e, st.f, st.g⟩

/-- Compress one 16-word message block into the running hash value. -/
def sha256Compress (st : Hash8) (block : List Nat) : Hash8 :=
  let ws := scheduleExtend block 48
  let t := (sha256K.zip ws).foldl sha256Round st
  ⟨trunc32 (st.a + t.a), trunc32 (st.b + t.b), trunc32 (st.c + t.c),
   trunc32 (st.d + t.d), trunc32 (st.e + t.e), trunc32 (st.f + t.f),
   trunc32 (st.g + t.g), trunc32 (st.h + t.h)⟩

/-- Process the padded message, 16 words (64 bytes) per block. -/
def sha256Blocks (st : Hash8) : List Nat → Hash8
  | w0 :: w1 :: w2 :: w3 :: w4 :: w5 :: w6 :: w7 ::
    w8 :: w9 :: w10 :: w11 :: w12 :: w13 :: w14 :: w15 :: rest =>
      sha256Blocks
        (sha256Compress st
          [w0, w1, w2, w3, w4, w5, w6, w7, w8, w9, w10, w11, w12, w13, w14, w15])
        rest
  | _ => st

/-- Lowercase hex digit for a value below 16. -/
def hexDigit (n : Nat) : Char :=
  (String.data "0123456789abcdef").getD n '0'

/-- Eight-character lowercase hex rendering of a 32-bit word. -/
def hexWord32 (w : Nat) : String :=
  ⟨(List.range 8).map fun i => hexDigit ((w >>> (4 * (7 - i))) % 16)⟩

/-- Embeds the Node crypto SHA-256 hex digest call used throughout the source:
the lowercase hexadecimal SHA-256 digest of the UTF-8 bytes of `s`. -/
def sha256hex (s : String) : String :=
  let st := sha256Blocks sha256init (bytesToWords (sha256pad (utf8Bytes s)))
  hexWord32 st.a ++ hexWord32 st.b ++ hexWord32 st.c ++ hexWord32 st.d ++
  hexWord32 st.e ++ hexWord32 st.f ++ hexWord32 st.g ++ hexWord32 st.h

/-! ## Data model

Records stored by the plugin.  The source treats keypairs, accounts and
certificate bundles as plain JS objects serialized with JSON; the fields
below are the ones the source reads or writes, plus an `extra` association
list modelling arbitrary further caller-supplied fields that JSON
serialization carries through verbatim. -/

/-- A truthy JS value usable in the `agreeTos` field: `true` or a ToS URL
string.  An absent or falsy field is modelled by `Option.none` at the use
site, so `Option.or` embeds the JS `||` on these fields. -/
inductive TosVal
  | tru
  | str (s : String)
  deriving DecidableEq, Repr

/-- An account keypair as used by the source and its test fixtures. -/
structure Keypair where
  privateKeyPem : String
  privateKeyJwk : Option String := none
  publicKeyPem : String
  deriving DecidableEq, Repr

/-- An ACME registration as passed to `accounts.set`: the keypair, the
receipt, an optional `agreeTos`, and arbitrary extra caller fields. -/
structure Registration where
  keypair : Keypair
  receipt : Option String := none
  agreeTos : Option TosVal := none
  extra : List (String × String) := []
  deriving DecidableEq, Repr

/-- A stored account: the deep copy of the registration with `id`,
`accountId`, `email` and `agreeTos` overwritten by `redisSetAccount`. -/
structure Account where
  id : String
  accountId : String
  email : Option String
  agreeTos : Option TosVal
  keypair : Keypair
  receipt : Option String
  extra : List (String × String)
  deriving DecidableEq, Repr

/-- A certificate bundle: the pems argument of `certificates.set`; the
hard-coded callback of the check stub also carries `domains` and
`accountId` fields, so the record includes them, defaulted. -/
structure CertBundle where
  privkey : String
  cert : String
  chain : String
  domains : List String := []
  accountId : Option String := none
  deriving DecidableEq, Repr

/-- A value held at one Redis key.  The source stores JSON text; since JSON
round-trips these plain records exactly, the model stores them in typed form.
`idx` is an index entry holding the key of a target record.  The type tags
never clash in practice because every record and index family lives under its
own key namespace. -/
inductive StoreVal
  | kp (k : Keypair)
  | acct (a : Account)
  | cert (c : CertBundle)
  | idx (targetId : String)
  deriving DecidableEq, Repr

/-- One Redis entry: key, value, and optional time-to-live in seconds. -/
structure Entry where
  key : String
  val : StoreVal
  ttl : Option Nat
  deriving DecidableEq, Repr

/-- The Redis database state. -/
abbrev Store := List Entry

/-- Drop every entry at a key, in preparation for an overwriting insert. -/
def Store.eraseKey : Store → String → Store
  | [], _ => []
  | e :: rest, k =>
      if e.key = k then Store.eraseKey rest k
      else e :: Store.eraseKey rest k

/-- Embeds `client.set` (last-writer-wins overwrite), optionally with a
time-to-live as set by the certificate operations. -/
def Store.set (st : Store) (k : String) (v : StoreVal) (t : Option Nat) :
    Store :=
  ⟨k, v, t⟩ :: Store.eraseKey st k

/-- Embeds `client.get`: the value at a key, or `none` when absent. -/
def Store.get : Store → String → Option StoreVal
  | [], _ => none
  | e :: rest, k => if e.key = k then some e.val else Store.get rest k

/-- JS truthiness of an optional string field: absent and the empty string
are falsy; the branches of the source guard each write and lookup with it. -/
def truthy : Option String → Option String
  | some s => if s = "" then none else some s
  | none => none

/-- Embeds `deserializeJson` at keypair type: a null reply passes through as
null, a present reply parses back to the stored record. -/
def deserializeKeypair : Option StoreVal → Option Keypair
  | some (.kp k) => some k
  | _ => none

/-- Embeds `deserializeJson` at account type. -/
def deserializeAccount : Option StoreVal → Option Account
  | some (.acct a) => some a
  | _ => none

/-! ## Account store (from the source)

The opts record carries every field the account operations inspect. -/

/-- Options object passed to the account operations. -/
structure AccountOpts where
  email : Option String := none
  accountId : Option String := none
  id : Option String := none
  agreeTos : Option TosVal := none
  domains : Option (List String) := none
  deriving DecidableEq, Repr

/-- Embeds `redisSetAccountKeypair`: stringifies the keypair and, in an
`async.parallel` fan-out (applied here in array order; the two writes go to
distinct keys), writes it under the hashed email index and under the hashed
accountId index when those options are truthy.  The join then returns the
original keypair. -/
def redisSetAccountKeypair (options : AccountOpts) (keypair : Keypair)
    (st : Store) : Keypair × Store :=
  let st1 := match truthy options.email with
    | some e => st.set ("keypair-email-" ++ sha256hex e) (.kp keypair) none
    | none => st
  let st2 := match truthy options.accountId with
    | some a => st1.set ("keypair-account-" ++ sha256hex a) (.kp keypair) none
    | none => st1
  (keypair, st2)

/-- Embeds `redisCheckAccountKeypair`: looks up the hashed email index when
`options.email` is truthy, else the hashed accountId index, else fails. -/
def redisCheckAccountKeypair (options : AccountOpts) (st : Store) :
    Except String (Option Keypair) :=
  match truthy options.email with
  | some e =>
      .ok (deserializeKeypair (st.get ("keypair-email-" ++ sha256hex e)))
  | none =>
      match truthy options.accountId with
      | some a =>
          .ok (deserializeKeypair (st.get ("keypair-account-" ++ sha256hex a)))
      | none =>
          .error ("le-store-redis.redisCheckAccountKeypair " ++
            "lookup requires options.email or options.accountId.")

/-- Embeds `redisCheckAccount`: email lookups go through the hashed
`account-email-` index; accountId lookups fetch the raw accountId as the key
(unhashed); domain lookups fetch the stringified domains array as the key
(the FIXME branch of the source; a JS array argument is coerced to its
comma-joined string form by the client). -/
def redisCheckAccount (options : AccountOpts) (st : Store) :
    Except String (Option Account) :=
  match truthy options.email with
  | some e =>
      .ok (deserializeAccount (st.get ("account-email-" ++ sha256hex e)))
  | none =>
      match truthy options.accountId with
      | some a => .ok (deserializeAccount (st.get a))
      | none =>
          match options.domains with
          | some ds =>
              .ok (deserializeAccount (st.get (String.intercalate "," ds)))
          | none =>
              .error ("le-store-redis.redisCheckAccount requires " ++
                "options.email, options.accountId, or options.domains")

/-- Embeds `redisSetAccount`: derives the account id from the public key pem,
deep-copies the registration, overwrites `id`, `accountId`, `email` and
`agreeTos`, then in an `async.parallel` fan-out (array order; distinct keys)
writes the JSON account under the hashed email index when `options.email` is
truthy, and under the key built from the hashed caller-supplied
`options.accountId` when that is truthy.  The join returns the account. -/
def redisSetAccount (options : AccountOpts) (reg : Registration) (st : Store) :
    Account × Store :=
  let accountId := "account-" ++ sha256hex reg.keypair.publicKeyPem
  let account : Account :=
    { id := accountId
      accountId := accountId
      email := options.email
      agreeTos := options.agreeTos.or reg.agreeTos
      keypair := reg.keypair
      receipt := reg.receipt
      extra := reg.extra }
  let st1 := match truthy options.email with
    | some e => st.set ("account-email-" ++ sha256hex e) (.acct account) none
    | none => st
  let st2 := match truthy options.accountId with
    | some aid => st1.set ("account-" ++ sha256hex aid) (.acct account) none
    | none => st1
  (account, st2)

/-! ## Configuration

The README documents the `certExpiry` option: certificate entries are
deleted from the database after this many seconds, default 100 days. -/

/-- Options accepted by `create`. -/
structure CreateOptions where
  debug : Bool := false
  certExpiry : Option Nat := none
  deriving DecidableEq, Repr

/-- Modelled from the spec: the resolved certificate TTL in seconds —
`certExpiry: integer seconds (default 8,640,000 ≈ 100 days)`; the merge of
this option with its default is not implemented under src. -/
def resolveCertExpiry (o : CreateOptions) : Nat :=
  o.certExpiry.getD 8640000

/-! ## Certificate store (from the source)

In part_001 the four certificate operations are stubs: their bodies carry
comments describing the intended behavior (save to the database, index the
domains, return null when absent), but what they execute is fixed — the
set operations call back with their argument and never touch the client,
and the check operations call back with hard-coded dummy records.  The
`certExpiry` option documented in the README is read nowhere in part_001. -/

/-- Options object passed to the certificate operations; the stubs accept
and ignore it. -/
structure CertOpts where
  domains : Option (List String) := none
  email : Option String := none
  accountId : Option String := none
  deriving DecidableEq, Repr

/-- Embeds `redisSetCertificateKeypair` (part_001 lines 175-181): the body
performs no client call and calls back with the keypair unchanged. -/
def redisSetCertificateKeypair (options : CertOpts) (keypair : Keypair)
    (st : Store) : Keypair × Store :=
  (keypair, st)

/-- The hard-coded keypair object called back by the checkKeypair stub
(part_001 line 188).  The JS object carries no publicKeyPem field, which is
modelled as the empty string; its empty-object privateKeyJwk is modelled as
the empty-object text. -/
def certStubKeypair : Keypair :=
  { privateKeyPem := "...", privateKeyJwk := some "\x7b\x7d",
    publicKeyPem := "" }

/-- Embeds `redisCheckCertificateKeypair` (part_001 lines 182-189): the
body ignores the options and the store and always calls back with the
fixed dummy keypair — never null and never an error. -/
def redisCheckCertificateKeypair (options : CertOpts) (st : Store) :
    Except String (Option Keypair) :=
  .ok (some certStubKeypair)

/-- The hard-coded bundle called back by the certificate check stub
(part_001 line 202). -/
def certStubBundle : CertBundle :=
  { privkey := "PEM", cert := "PEM", chain := "PEM", domains := [],
    accountId := some "..." }

/-- Embeds `redisCheckCertificate` (part_001 lines 191-203): the body
ignores the options and the store and always calls back with the fixed
dummy bundle — never null and never an error. -/
def redisCheckCertificate (options : CertOpts) (st : Store) :
    Except String (Option CertBundle) :=
  .ok (some certStubBundle)

/-- Embeds `redisSetCertificate` (part_001 lines 205-217): the body
performs no client call at all — no record, no index, no TTL — and calls
back with the pems argument unchanged. -/
def redisSetCertificate (options : CertOpts) (pems : CertBundle)
    (st : Store) : CertBundle × Store :=
  (pems, st)

/-- Decidable equality of results, used to evaluate the operations at
concrete inputs. -/
instance exceptDecEq {ε α : Type} [DecidableEq ε] [DecidableEq α] :
    DecidableEq (Except ε α) := fun x y =>
  match x, y with
  | .ok a, .ok b =>
      if h : a = b then .isTrue (by rw [h]) else .isFalse (by simp [h])
  | .error a, .error b =>
      if h : a = b then .isTrue (by rw [h]) else .isFalse (by simp [h])
  | .ok _, .error _ => .isFalse (by simp)
  | .error _, .ok _ => .isFalse (by simp)

/-- Registration fixture for the end-to-end account scenario of the
repository test suite. -/
def goodGuyReg : Registration :=
  { keypair := ⟨"PRIVKEY.PEM", some "JWK", "PUBKEY.PEM"⟩,
    receipt := some "RECEIPT" }

/-- Options fixture for the end-to-end account scenario. -/
def goodGuyOpts : AccountOpts :=
  { email := some "goodguy@example.com", agreeTos := some .tru }

/-- The account and store produced by accounts.set in the end-to-end
scenario, starting from the empty store. -/
def goodGuySet : Account × Store := redisSetAccount goodGuyOpts goodGuyReg []

/-! ## SHA-256 validation -/

/-- Validation of the SHA-256 embedding against the FIPS 180-4 test vector. -/
theorem sha256hex_abc : sha256hex "abc" =
    "ba7816bf8f01cfea414140de5dae2223b00361a396177a9cb410ff61f20015ad" := by
  decide

/-- Validation of the SHA-256 embedding on the empty message. -/
theorem sha256hex_empty : sha256hex "" =
    "e3b0c44298fc1c149afbf4c8996fb92427ae41e4649b934ca495991b7852b855" := by
  decide

/-! ## Store lemmas -/

/-- Reading back the key just written yields the written value. -/
theorem Store.get_set_self (st : Store) (k : String) (v : StoreVal)
    (t : Option Nat) : (st.set k v t).get k = some v := by
  simp [Store.set, Store.get]

/-- Reading a different key is unaffected by a write. -/
theorem Store.get_eraseKey (st : Store) (k k' : String) (h : k' ≠ k) :
    (Store.eraseKey st k).get k' = st.get k' := by
  have hk : k ≠ k' := fun hk => h hk.symm
  induction st with
  | nil => rfl
  | cons e rest ih =>
      by_cases he : e.key = k
      · simp [Store.eraseKey, he, Store.get, hk, ih]
      · by_cases he' : e.key = k'
        · simp [Store.eraseKey, he, Store.get, he', h]
        · simp [Store.eraseKey, he, Store.get, he', ih]

/-- Reading a different key is unaffected by a write. -/
theorem Store.get_set_ne (st : Store) (k k' : String) (v : StoreVal)
    (t : Option Nat) (h : k' ≠ k) : (st.set k v t).get k' = st.get k' := by
  have hk : k ≠ k' := fun hk => h hk.symm
  simp [Store.set, Store.get, hk, Store.get_eraseKey st k k' h]

/-! ## Key-length facts

Keys are a fixed family tag followed by a 64-character hex digest, so keys
from families with tags of different lengths can never coincide. -/

/-- A rendered 32-bit word is eight characters long. -/
theorem hexWord32_length (w : Nat) : (hexWord32 w).length = 8 := by
  simp [hexWord32, String.length]

/-- The hex digest is sixty-four characters long. -/
theorem sha256hex_length (s : String) : (sha256hex s).length = 64 := by
  simp [sha256hex, String.length_append, hexWord32_length]

/-- Strings of different lengths differ. -/
theorem ne_of_length_ne {s t : String} (h : s.length ≠ t.length) : s ≠ t :=
  fun he => h (he ▸ rfl)

/-- Two family-tagged hash keys whose family tags have different lengths can
never coincide. -/
theorem hashKey_ne (p q s t : String) (h : p.length ≠ q.length) :
    p ++ sha256hex s ≠ q ++ sha256hex t := by
  apply ne_of_length_ne
  rw [String.length_append, String.length_append, sha256hex_length,
    sha256hex_length]
  omega

/-! ## Claims -/

/-- Claim C1: for every keypair k and email e, accounts.setKeypair with that
email followed by accounts.checkKeypair with the same email returns a keypair
whose publicKeyPem and privateKeyPem fields equal those of k.  (An email is
a nonempty string; the empty string is falsy in the source guards.) -/
theorem claim_C1_keypair_roundtrip (e : String) (he : e ≠ "") (k : Keypair)
    (st : Store) :
    ∃ k2, redisCheckAccountKeypair { email := some e }
        (redisSetAccountKeypair { email := some e } k st).2 = .ok (some k2) ∧
      k2.publicKeyPem = k.publicKeyPem ∧
      k2.privateKeyPem = k.privateKeyPem := by
  refine ⟨k, ?_, rfl, rfl⟩
  simp [redisSetAccountKeypair, redisCheckAccountKeypair, truthy, he,
    Store.get_set_self, deserializeKeypair]

/-- Witness for claim C1 at the keypair fixture of the repository tests. -/
theorem claim_C1_witness :
    ∃ k2, redisCheckAccountKeypair { email := some "goodguy@example.com" }
        (redisSetAccountKeypair { email := some "goodguy@example.com" }
          { privateKeyPem := "PRIVKEY.PEM", privateKeyJwk := some "JWK",
            publicKeyPem := "PUBKEY.PEM" } []).2 = .ok (some k2) ∧
      k2.publicKeyPem = "PUBKEY.PEM" ∧ k2.privateKeyPem = "PRIVKEY.PEM" :=
  claim_C1_keypair_roundtrip "goodguy@example.com" (by decide)
    { privateKeyPem := "PRIVKEY.PEM", privateKeyJwk := some "JWK",
      publicKeyPem := "PUBKEY.PEM" } []

/-- Counterexample to claim C3 as stated: at a concrete registration, the id
returned by accounts.set is not the bare lowercase hex SHA-256 digest of
publicKeyPem — the source prepends the account namespace tag, so the two
strings have different lengths. -/
theorem claim_C3_counterexample :
    (redisSetAccount { email := some "goodguy@example.com" }
        { keypair := { privateKeyPem := "PRIVKEY.PEM",
                       publicKeyPem := "PUBKEY.PEM" } } []).1.id ≠
      sha256hex "PUBKEY.PEM" := by
  intro h
  have hid : (redisSetAccount { email := some "goodguy@example.com" }
      { keypair := { privateKeyPem := "PRIVKEY.PEM",
                     publicKeyPem := "PUBKEY.PEM" } } []).1.id =
      "account-" ++ sha256hex "PUBKEY.PEM" := rfl
  rw [hid] at h
  have hl := congrArg String.length h
  rw [String.length_append, show ("account-" : String).length = 8 from rfl]
    at hl
  omega

/-- Claim C3 as amended: the id of the account returned by accounts.set is
the string account- followed by the lowercase hex SHA-256 digest of
reg.keypair.publicKeyPem; in particular two calls with the same public key
pem yield the same id. -/
theorem claim_C3_amended (opts opts2 : AccountOpts) (reg reg2 : Registration)
    (st st2 : Store)
    (hsame : reg2.keypair.publicKeyPem = reg.keypair.publicKeyPem) :
    (redisSetAccount opts reg st).1.id =
        "account-" ++ sha256hex reg.keypair.publicKeyPem ∧
      (redisSetAccount opts2 reg2 st2).1.id =
        (redisSetAccount opts reg st).1.id := by
  refine ⟨rfl, ?_⟩
  show "account-" ++ sha256hex reg2.keypair.publicKeyPem =
    "account-" ++ sha256hex reg.keypair.publicKeyPem
  rw [hsame]

/-- Witness for the amended claim C3 at concrete registrations sharing the
same public key pem. -/
theorem claim_C3_witness :
    (redisSetAccount { email := some "goodguy@example.com" }
        { keypair := { privateKeyPem := "PRIVKEY.PEM",
                       publicKeyPem := "PUBKEY.PEM" } } []).1.id =
        "account-" ++ sha256hex "PUBKEY.PEM" ∧
      (redisSetAccount { email := some "john.doe@gmail.com" }
          { keypair := { privateKeyPem := "PEM2",
                         publicKeyPem := "PUBKEY.PEM" },
            receipt := some "RECEIPT" } []).1.id =
        (redisSetAccount { email := some "goodguy@example.com" }
            { keypair := { privateKeyPem := "PRIVKEY.PEM",
                           publicKeyPem := "PUBKEY.PEM" } } []).1.id :=
  claim_C3_amended { email := some "goodguy@example.com" }
    { email := some "john.doe@gmail.com" }
    { keypair := { privateKeyPem := "PRIVKEY.PEM",
                   publicKeyPem := "PUBKEY.PEM" } }
    { keypair := { privateKeyPem := "PEM2", publicKeyPem := "PUBKEY.PEM" },
      receipt := some "RECEIPT" }
    [] [] rfl

/-- Counterexample to claim C4 as stated: when the caller supplies exactly
the derived id as opts.accountId, the returned id does equal the
caller-supplied opts.accountId, so the returned id is not NEVER equal to a
caller-supplied value. -/
theorem claim_C4_counterexample :
    (redisSetAccount
        { email := some "john.doe@gmail.com",
          accountId := some ("account-" ++ sha256hex "PUBKEY.PEM"),
          id := some ("account-" ++ sha256hex "PUBKEY.PEM") }
        { keypair := { privateKeyPem := "PRIVKEY.PEM",
                       publicKeyPem := "PUBKEY.PEM" } } []).1.id =
      "account-" ++ sha256hex "PUBKEY.PEM" := rfl

/-- Claim C4 as amended: the id of the account returned by accounts.set is
always the one derived from reg.keypair.publicKeyPem, identical for any two
opts; caller-supplied opts.accountId and opts.id never influence it (they
can only coincide with it when the caller supplies the derived value
itself). -/
theorem claim_C4_amended (opts opts2 : AccountOpts) (reg : Registration)
    (st st2 : Store) :
    (redisSetAccount opts reg st).1.id =
        "account-" ++ sha256hex reg.keypair.publicKeyPem ∧
      (redisSetAccount opts reg st).1.id =
        (redisSetAccount opts2 reg st2).1.id :=
  ⟨rfl, rfl⟩

/-- Claim C5: evaluated against the staged program.  accounts.check and
accounts.checkKeypair do fail with the invalid-argument error when no
recognized lookup field is supplied, but certificates.check is a stub that
calls back with the hard-coded dummy bundle for every options record — it
never fails — contradicting the claim and the comment contract of its own
body. -/
theorem claim_C5_cert_check_never_fails (opts : AccountOpts)
    (copts : CertOpts) (st st2 : Store)
    (h1 : opts.email = none) (h2 : opts.accountId = none)
    (h3 : opts.domains = none) :
    redisCheckAccount opts st =
        .error ("le-store-redis.redisCheckAccount requires " ++
          "options.email, options.accountId, or options.domains") ∧
      redisCheckAccountKeypair opts st =
        .error ("le-store-redis.redisCheckAccountKeypair " ++
          "lookup requires options.email or options.accountId.") ∧
      redisCheckCertificate copts st2 = .ok (some certStubBundle) := by
  refine ⟨?_, ?_, rfl⟩
  · simp [redisCheckAccount, h1, h2, h3, truthy]
  · simp [redisCheckAccountKeypair, h1, h2, truthy]

/-- Witness for the claim C5 evaluation on empty options records and empty
stores. -/
theorem claim_C5_witness :
    redisCheckAccount {} [] =
        .error ("le-store-redis.redisCheckAccount requires " ++
          "options.email, options.accountId, or options.domains") ∧
      redisCheckAccountKeypair {} [] =
        .error ("le-store-redis.redisCheckAccountKeypair " ++
          "lookup requires options.email or options.accountId.") ∧
      redisCheckCertificate {} [] = .ok (some certStubBundle) :=
  claim_C5_cert_check_never_fails {} {} [] [] rfl rfl rfl

/-- Claim C10: accounts.setKeypair with neither email nor accountId succeeds
with the original keypair while performing no backend write at all: the
store state is returned unchanged, and starting from the empty store the
keypair cannot be retrieved by any subsequent checkKeypair lookup. -/
theorem claim_C10_setKeypair_noop (opts : AccountOpts) (k : Keypair)
    (st : Store) (e a : String)
    (hoe : opts.email = none) (hoa : opts.accountId = none)
    (he : e ≠ "") (ha : a ≠ "") :
    redisSetAccountKeypair opts k st = (k, st) ∧
      redisCheckAccountKeypair { email := some e }
        (redisSetAccountKeypair opts k []).2 = .ok none ∧
      redisCheckAccountKeypair { accountId := some a }
        (redisSetAccountKeypair opts k []).2 = .ok none := by
  refine ⟨?_, ?_, ?_⟩
  · simp [redisSetAccountKeypair, hoe, hoa, truthy]
  · simp [redisSetAccountKeypair, redisCheckAccountKeypair, hoe, hoa,
      truthy, he, Store.get, deserializeKeypair]
  · simp [redisSetAccountKeypair, redisCheckAccountKeypair, hoe, hoa,
      truthy, ha, Store.get, deserializeKeypair]

/-- Witness for claim C10 at the goodGuy keypair fixture. -/
theorem claim_C10_witness :
    redisSetAccountKeypair {} ⟨"PRIVKEY.PEM", none, "PUBKEY.PEM"⟩
        [⟨"k", .idx "t", none⟩] =
        (⟨"PRIVKEY.PEM", none, "PUBKEY.PEM"⟩, [⟨"k", .idx "t", none⟩]) ∧
      redisCheckAccountKeypair { email := some "goodguy@example.com" }
        (redisSetAccountKeypair {} ⟨"PRIVKEY.PEM", none, "PUBKEY.PEM"⟩
          []).2 = .ok none ∧
      redisCheckAccountKeypair { accountId := some "eee" }
        (redisSetAccountKeypair {} ⟨"PRIVKEY.PEM", none, "PUBKEY.PEM"⟩
          []).2 = .ok none :=
  claim_C10_setKeypair_noop {} _ _ "goodguy@example.com" "eee" rfl rfl
    (by decide) (by decide)

/-- The value of `truthy` on a nonempty string. -/
theorem truthy_some {e : String} (he : e ≠ "") : truthy (some e) = some e :=
  by simp [truthy, he]

/-- The value of `truthy` on an absent field. -/
theorem truthy_none : truthy none = none := rfl

set_option maxRecDepth 100000 in
/-- Claim C2 evaluated at the failing input: after accounts.set with the
goodGuy registration, no record is stored at key id, the lookup by
accountId returns null, and only the lookup by email finds the account —
the code contradicts the end-to-end scenario and the repository test that
retrieves the account by accountId. -/
theorem claim_C2_failing_eval :
    goodGuySet.2.get goodGuySet.1.id = none ∧
      redisCheckAccount { accountId := some goodGuySet.1.id } goodGuySet.2 =
        .ok none ∧
      redisCheckAccount { email := some "goodguy@example.com" } goodGuySet.2 =
        .ok (some goodGuySet.1) := by
  decide

/-- Claim C9: extra caller-supplied registration fields pass through
accounts.set unchanged (as do keypair and receipt), and a subsequent
accounts.check by the email finds the stored account carrying them; only
id, accountId, email and agreeTos are overwritten by the store. -/
theorem claim_C9_extra_fields (opts : AccountOpts) (reg : Registration)
    (st : Store) (e : String) (hoe : opts.email = some e) (he : e ≠ "") :
    (redisSetAccount opts reg st).1.extra = reg.extra ∧
      (redisSetAccount opts reg st).1.keypair = reg.keypair ∧
      (redisSetAccount opts reg st).1.receipt = reg.receipt ∧
      redisCheckAccount { email := some e } (redisSetAccount opts reg st).2 =
        .ok (some (redisSetAccount opts reg st).1) := by
  refine ⟨rfl, rfl, rfl, ?_⟩
  have hte := truthy_some he
  cases htr : truthy opts.accountId with
  | none =>
      simp [redisSetAccount, redisCheckAccount, hoe, hte, htr,
        Store.get_set_self, deserializeAccount]
  | some aid =>
      have hne := hashKey_ne "account-email-" "account-" e aid (by decide)
      simp [redisSetAccount, redisCheckAccount, hoe, hte, htr,
        Store.get_set_ne, hne, Store.get_set_self, deserializeAccount]

/-- Witness for claim C9 at the arbitrary-extra-field fixture of the
repository test suite. -/
theorem claim_C9_witness :
    (redisSetAccount
          { email := some "john.doe@gmail.com",
            accountId := some "_account_id", id := some "__account_id",
            agreeTos := some (.str "TOS_URL") }
          { keypair := ⟨"PEM2", some "JWK2", "PUBPEM2"⟩,
            receipt := some "RECEIPT2",
            extra := [("rnd", "rnd")] } []).1.extra = [("rnd", "rnd")] ∧
      (redisSetAccount
          { email := some "john.doe@gmail.com",
            accountId := some "_account_id", id := some "__account_id",
            agreeTos := some (.str "TOS_URL") }
          { keypair := ⟨"PEM2", some "JWK2", "PUBPEM2"⟩,
            receipt := some "RECEIPT2",
            extra := [("rnd", "rnd")] } []).1.keypair =
        ⟨"PEM2", some "JWK2", "PUBPEM2"⟩ ∧
      (redisSetAccount
          { email := some "john.doe@gmail.com",
            accountId := some "_account_id", id := some "__account_id",
            agreeTos := some (.str "TOS_URL") }
          { keypair := ⟨"PEM2", some "JWK2", "PUBPEM2"⟩,
            receipt := some "RECEIPT2",
            extra := [("rnd", "rnd")] } []).1.receipt = some "RECEIPT2" ∧
      redisCheckAccount { email := some "john.doe@gmail.com" }
          (redisSetAccount
            { email := some "john.doe@gmail.com",
              accountId := some "_account_id", id := some "__account_id",
              agreeTos := some (.str "TOS_URL") }
            { keypair := ⟨"PEM2", some "JWK2", "PUBPEM2"⟩,
              receipt := some "RECEIPT2",
              extra := [("rnd", "rnd")] } []).2 =
        .ok (some (redisSetAccount
            { email := some "john.doe@gmail.com",
              accountId := some "_account_id", id := some "__account_id",
              agreeTos := some (.str "TOS_URL") }
            { keypair := ⟨"PEM2", some "JWK2", "PUBPEM2"⟩,
              receipt := some "RECEIPT2",
              extra := [("rnd", "rnd")] } []).1) :=
  claim_C9_extra_fields
    { email := some "john.doe@gmail.com",
      accountId := some "_account_id", id := some "__account_id",
      agreeTos := some (.str "TOS_URL") }
    { keypair := ⟨"PEM2", some "JWK2", "PUBPEM2"⟩,
      receipt := some "RECEIPT2", extra := [("rnd", "rnd")] }
    [] "john.doe@gmail.com" rfl (by decide)

/-- Claim C6: evaluated against the staged program.  For lookup keys absent
from the store (any never-registered email, domain or accountId), the
account lookups return null as claimed, but the certificate check stubs
always call back with hard-coded non-null dummy records, contradicting the
claim and the comment contract of their own bodies. -/
theorem claim_C6_cert_checks_not_null (st : Store) (e d a : String)
    (he : e ≠ "") (ha : a ≠ "")
    (h1 : st.get ("keypair-email-" ++ sha256hex e) = none)
    (h2 : st.get ("keypair-account-" ++ sha256hex a) = none)
    (h3 : st.get ("account-email-" ++ sha256hex e) = none)
    (h4 : st.get a = none)
    (h5 : st.get (String.intercalate "," [d]) = none) :
    redisCheckAccountKeypair { email := some e } st = .ok none ∧
      redisCheckAccountKeypair { accountId := some a } st = .ok none ∧
      redisCheckAccount { email := some e } st = .ok none ∧
      redisCheckAccount { accountId := some a } st = .ok none ∧
      redisCheckAccount { domains := some [d] } st = .ok none ∧
      redisCheckCertificate { domains := some [d] } st =
        .ok (some certStubBundle) ∧
      redisCheckCertificate { email := some e } st =
        .ok (some certStubBundle) ∧
      redisCheckCertificate { accountId := some a } st =
        .ok (some certStubBundle) ∧
      redisCheckCertificateKeypair { domains := some [d] } st =
        .ok (some certStubKeypair) := by
  have hte := truthy_some he
  have hta := truthy_some ha
  refine ⟨?_, ?_, ?_, ?_, ?_, rfl, rfl, rfl, rfl⟩ <;>
    simp [redisCheckAccountKeypair, redisCheckAccount, hte, hta,
      truthy_none, h1, h2, h3, h4, h5, deserializeKeypair,
      deserializeAccount]

/-- Witness for the claim C6 evaluation on the empty store with the
never-registered fixtures of the repository test suite. -/
theorem claim_C6_witness :
    redisCheckAccountKeypair { email := some "e@gmail.co" } [] = .ok none ∧
      redisCheckAccountKeypair { accountId := some "eee" } [] = .ok none ∧
      redisCheckAccount { email := some "e@gmail.co" } [] = .ok none ∧
      redisCheckAccount { accountId := some "eee" } [] = .ok none ∧
      redisCheckAccount { domains := some ["example.com"] } [] = .ok none ∧
      redisCheckCertificate { domains := some ["example.com"] } [] =
        .ok (some certStubBundle) ∧
      redisCheckCertificate { email := some "e@gmail.co" } [] =
        .ok (some certStubBundle) ∧
      redisCheckCertificate { accountId := some "eee" } [] =
        .ok (some certStubBundle) ∧
      redisCheckCertificateKeypair { domains := some ["example.com"] } [] =
        .ok (some certStubKeypair) :=
  claim_C6_cert_checks_not_null [] "e@gmail.co" "example.com" "eee"
    (by decide) (by decide) rfl rfl rfl rfl rfl

/-- Claim C7: evaluated against the staged program at the altnames fixture
of the bundled test suite.  certificates.set writes nothing — the store
comes back unchanged — and certificates.check on a domain of the stored
list calls back with the fixed dummy bundle, whose privkey differs from
the stored bundle: the claimed roundtrip (also required by the bundled
tests) fails. -/
theorem claim_C7_stub_eval :
    redisSetCertificate
        { domains := some ["example.com", "www.example.com"] }
        ⟨"PRIVKEY_A.PEM", "CERT_A.PEM", "CHAIN_A.PEM", [], none⟩ [] =
        (⟨"PRIVKEY_A.PEM", "CERT_A.PEM", "CHAIN_A.PEM", [], none⟩, []) ∧
      redisCheckCertificate { domains := some ["www.example.com"] } [] =
        .ok (some certStubBundle) ∧
      certStubBundle.privkey ≠ "PRIVKEY_A.PEM" :=
  ⟨rfl, rfl, by decide⟩

/-- Claim C8: evaluated against the staged program.  certificates.set is a
stub performing no write for any options, pems and store — no record, no
index, hence no key carrying any TTL — and the certExpiry option (README
default 8,640,000 seconds, kept in resolveCertExpiry) is read nowhere in
part_001: the claimed TTL behavior is absent from the code. -/
theorem claim_C8_stub_no_writes (options : CertOpts) (pems : CertBundle)
    (st : Store) :
    redisSetCertificate options pems st = (pems, st) ∧
      resolveCertExpiry {} = 8640000 :=
  ⟨rfl, rfl⟩
